import Mathlib

/-
Shallow embedding of the expense-tracker bot (src/bot.py) and verification of
the frozen claims about its ledger-partition manager and conversation handler.

Modelling conventions:
- A Google spreadsheet is a `Sheet`: an ordered list of `Worksheet`s (tabs),
  each with a title and an ordered list of rows of `Cell`s.
- Monetary amounts are exact rationals; Python `float(x)` is embedded as
  `pyFloat`, which succeeds on numbers and on decimal-literal strings and
  fails (raises) otherwise.
- Wall-clock time is passed in explicitly as a `DateTime` value `now`.
- Draft transactions are JSON-like dictionaries with optional keys, embedded
  as a structure of `Option` fields; `Option.getD` embeds `dict.get(k, dflt)`.
- The Telegram transport never fails in this model (it is an out-of-scope
  collaborator); the storage backend row-append may fail, which is threaded
  as an explicit `backendOk` flag.
-/

namespace ExpenseBot

/-- Zero-pad a natural number to two digits, as Python strftime %m/%d/%H/%M/%S. -/
def pad2 (n : Nat) : String :=
  if n < 10 then "0" ++ toString n else toString n

/-- Zero-pad a natural number to four digits, as Python strftime %Y. -/
def pad4 (n : Nat) : String :=
  if n < 10 then "000" ++ toString n
  else if n < 100 then "00" ++ toString n
  else if n < 1000 then "0" ++ toString n
  else toString n

/-- A calendar date (year, month, day). -/
structure Date where
  year : Nat
  month : Nat
  day : Nat
deriving DecidableEq

/-- A wall-clock instant: date plus time of day. -/
structure DateTime where
  date : Date
  hour : Nat
  minute : Nat
  second : Nat
deriving DecidableEq

/-- Full English month name, as Python strftime %B (months are 1..12). -/
def monthName : Nat → String
  | 1 => "January"
  | 2 => "February"
  | 3 => "March"
  | 4 => "April"
  | 5 => "May"
  | 6 => "June"
  | 7 => "July"
  | 8 => "August"
  | 9 => "September"
  | 10 => "October"
  | 11 => "November"
  | 12 => "December"
  | _ => ""

/-- The monthly-partition label, bot.py line 69: strftime of a date
with the pattern yyyy-mm followed by the full month name. -/
def monthLabel (d : Date) : String :=
  pad4 d.year ++ "-" ++ pad2 d.month ++ " " ++ monthName d.month

/-- strftime of a date with the yyyy-mm-dd pattern. -/
def formatDate (d : Date) : String :=
  pad4 d.year ++ "-" ++ pad2 d.month ++ "-" ++ pad2 d.day

/-- strftime of an instant with the yyyy-mm-dd hh:mm:ss pattern (bot.py line 158). -/
def formatTimestamp (t : DateTime) : String :=
  formatDate t.date ++ " " ++ pad2 t.hour ++ ":" ++ pad2 t.minute ++ ":" ++ pad2 t.second

/-- A Python value as it appears in a JSON draft field or a spreadsheet cell
read back by gspread: either a number or a string. -/
inductive PyVal where
  | num (q : ℚ)
  | str (s : String)
deriving DecidableEq

/-- Digits-to-number accumulator for `parseDecimal`. -/
def natOfDigits (cs : List Char) : Nat :=
  cs.foldl (fun n c => 10 * n + (c.toNat - 48)) 0

/-- Parse a decimal literal the way Python float() does on the strings this
program meets: optional sign, digit run, optional point and fraction digits.
Returns none exactly when Python float() would raise ValueError. -/
def parseDecimal (s : String) : Option ℚ :=
  let cs := s.data
  let neg : Bool := match cs with
    | '-' :: _ => true
    | _ => false
  let body : List Char := match cs with
    | '-' :: rest => rest
    | '+' :: rest => rest
    | other => other
  let intPart := body.takeWhile (fun c => c ≠ '.')
  let rest := body.dropWhile (fun c => c ≠ '.')
  let fracPart : Option (List Char) := match rest with
    | [] => some []
    | '.' :: f => if f.all Char.isDigit then some f else none
    | _ => none
  match fracPart with
  | none => none
  | some f =>
    if intPart.all Char.isDigit && (!intPart.isEmpty || !f.isEmpty) then
      let mag : ℚ := (natOfDigits intPart : ℚ) + (natOfDigits f : ℚ) / ((10 : ℚ) ^ f.length)
      some (if neg then -mag else mag)
    else none

/-- Python float() applied to a draft/record field: a number passes through,
a string is parsed as a decimal or raises ValueError. -/
def pyFloat : PyVal → Except String ℚ
  | .num q => .ok q
  | .str s =>
    match parseDecimal s with
    | some q => .ok q
    | none => .error ("could not convert string to float: " ++ s)

deriving instance DecidableEq for Except

/-- Python str.startswith on exact characters (kernel-reducible form). -/
def strStartsWith (s pat : String) : Bool :=
  pat.data.isPrefixOf s.data

/-- One spreadsheet cell. -/
inductive Cell where
  | str (s : String)
  | num (q : ℚ)
deriving DecidableEq

/-- One spreadsheet row. -/
abbrev Row := List Cell

/-- One worksheet (tab): a title and its rows (header row included once created). -/
structure Worksheet where
  title : String
  rows : List Row
deriving DecidableEq

/-- The whole spreadsheet: an ordered list of worksheets. -/
structure Sheet where
  worksheets : List Worksheet
deriving DecidableEq

/-- gspread sheet.worksheet(title): the first worksheet with the given exact
title, or a WorksheetNotFound failure embedded as none. -/
def Sheet.worksheet (s : Sheet) (title : String) : Option Worksheet :=
  s.worksheets.find? (fun w => w.title == title)

/-- Remove the first worksheet bearing the given title (helper for reposition). -/
def removeFirstByTitle : List Worksheet → String → List Worksheet
  | [], _ => []
  | w :: ws, t => if w.title == t then ws else w :: removeFirstByTitle ws t

/-- Append a row to the first worksheet bearing the given title
(gspread worksheet.append_row on the handle returned by lookup). -/
def appendRowToWorksheets (l : List Worksheet) (t : String) (r : Row) : List Worksheet :=
  match l with
  | [] => []
  | w :: ws =>
    if w.title == t then { w with rows := w.rows ++ [r] } :: ws
    else w :: appendRowToWorksheets ws t r

/-- Total number of stored rows across all worksheets. -/
def sheetRowCount (s : Sheet) : Nat :=
  (s.worksheets.map (fun w => w.rows.length)).sum

/-- The static ordered category catalog, bot.py lines 17-45. -/
def CATEGORIES : List String := [
  "🍔 Food & Dining",
  "🚗 Transportation",
  "🛍️ Shopping",
  "🏠 Bills & Utilities",
  "💊 Healthcare",
  "🎬 Entertainment",
  "✈️ Travel",
  "🎓 Education",
  "💰 Investments",
  "🎁 Gifts",
  "👕 Clothing",
  "🏋️ Fitness",
  "💻 Technology",
  "🔧 Maintenance",
  "📱 Subscriptions",
  "🍺 Social",
  "🐕 Pets",
  "📚 Books",
  "💇 Personal Care",
  "🎮 Gaming",
  "☕ Coffee/Drinks",
  "🏪 Groceries",
  "⛽ Fuel",
  "🅿️ Parking",
  "🚕 Ride-sharing",
  "📦 Delivery",
  "💳 Others"
]

/-- The fixed header schema of a freshly created monthly partition (bot.py line 75). -/
def headerRow : Row :=
  [.str "Date", .str "Time", .str "Merchant", .str "Category", .str "Amount",
   .str "Currency", .str "Payment Method", .str "Description", .str "Logged At"]

/-- bot.py get_or_create_monthly_worksheet: look the month label up; on
WorksheetNotFound create a fresh tab (appended at the end) carrying the header
row. The bold/freeze formatting calls are presentation only and are omitted. -/
def get_or_create_monthly_worksheet (sheet : Sheet) (d : Date) : Worksheet × Sheet :=
  let month_name := monthLabel d
  match sheet.worksheet month_name with
  | some ws => (ws, sheet)
  | none =>
    let ws : Worksheet := ⟨month_name, [headerRow]⟩
    (ws, ⟨sheet.worksheets ++ [ws]⟩)

/-- bot.py archive_worksheet: look the title up (a lookup failure is caught and
reported as False); if the passed title already starts with the archived marker
return True with no change; otherwise rename the tab by prefixing the marker
and move it to the last position. -/
def archive_worksheet (sheet : Sheet) (worksheet_title : String) : Bool × Sheet :=
  match sheet.worksheet worksheet_title with
  | none => (false, sheet)
  | some ws =>
    if strStartsWith worksheet_title "[ARCHIVED]" then (true, sheet)
    else
      let new_title := "[ARCHIVED] " ++ worksheet_title
      let renamed : Worksheet := { ws with title := new_title }
      (true, ⟨removeFirstByTitle sheet.worksheets worksheet_title ++ [renamed]⟩)

/-- A draft transaction: the JSON dictionary returned by the recognition
service, fields optional exactly as dictionary keys may be absent. The date
is kept in parsed form; the raw string in the dictionary is its yyyy-mm-dd
rendering. -/
structure Draft where
  date : Option Date
  time : Option String
  merchant : Option String
  category : Option String
  amount : Option PyVal
  currency : Option String
  payment_method : Option String
  description : Option String
deriving DecidableEq

/-- bot.py log_to_sheets: resolve the partition from the draft date (today when
absent), build the 9-field row applying the dictionary-get defaults of lines
149-159, and append it. `backendOk = false` is modelled from the spec: the
storage backend row-append operation may fail (BackendUnavailable), in which
case the append raises and no row is stored. The float conversion of the
amount may also raise. Either failure surfaces as an error; the partition
lookup/creation has already happened by then, as in the source. -/
def log_to_sheets (backendOk : Bool) (sheet : Sheet) (data : Draft) (now : DateTime) :
    Except String Unit × Sheet :=
  let d := data.date.getD now.date
  let ws := (get_or_create_monthly_worksheet sheet d).1
  let s1 := (get_or_create_monthly_worksheet sheet d).2
  match pyFloat (data.amount.getD (.num 0)) with
  | .error e => (.error e, s1)
  | .ok amt =>
    if backendOk then
      let row : Row :=
        [.str (formatDate d),
         .str (data.time.getD ""),
         .str (data.merchant.getD ""),
         .str (data.category.getD ""),
         .num amt,
         .str (data.currency.getD "MYR"),
         .str (data.payment_method.getD ""),
         .str (data.description.getD ""),
         .str (formatTimestamp now)]
      (.ok (), ⟨appendRowToWorksheets s1.worksheets ws.title row⟩)
    else (.error "APIError", s1)

/-- One record returned by gspread get_all_records for a monthly partition:
the dictionary keyed by the header row. Category and Amount are the only keys
the statistics code reads; each may be absent (defensive dictionary get). -/
structure TxRecord where
  category : Option String
  amount : Option PyVal
deriving DecidableEq

/-- The float conversion of the Amount value (bot.py lines 344/350): a missing key
defaults to the number 0, then Python float is applied (which may raise). -/
def recordAmount (r : TxRecord) : Except String ℚ :=
  pyFloat (r.amount.getD (.num 0))

/-- The value the amount conversion yields when it succeeds, 0 otherwise. -/
def recordAmountD (r : TxRecord) : ℚ :=
  match recordAmount r with
  | .ok q => q
  | .error _ => 0

/-- The Category value with the dictionary default Others, bot.py line 349. -/
def recordCategory (r : TxRecord) : String :=
  r.category.getD "Others"

/-- The amount sum of bot.py line 344:
left-to-right sum; the first failing conversion raises out of the whole sum. -/
def statsTotal : List TxRecord → Except String ℚ
  | [] => .ok 0
  | r :: rs =>
    match recordAmount r with
    | .error e => .error e
    | .ok q =>
      match statsTotal rs with
      | .error e => .error e
      | .ok t => .ok (q + t)

/-- Add an amount to a category in the running per-category dictionary:
update the existing entry in place, or append a new entry at the end
(Python dict insertion order). -/
def addToTotals (ts : List (String × ℚ)) (cat : String) (amt : ℚ) : List (String × ℚ) :=
  match ts with
  | [] => [(cat, amt)]
  | (c, a) :: rest =>
    if c == cat then (c, a + amt) :: rest
    else (c, a) :: addToTotals rest cat amt

/-- The category_totals dictionary loop of bot.py lines 347-351, iterating the
records left to right; the float conversion may raise mid-loop. -/
def buildCatTotalsAux (acc : List (String × ℚ)) : List TxRecord → Except String (List (String × ℚ))
  | [] => .ok acc
  | r :: rs =>
    match recordAmount r with
    | .error e => .error e
    | .ok q => buildCatTotalsAux (addToTotals acc (recordCategory r) q) rs

/-- Stable insertion (descending by total) used to embed Python sorted(...,
key=value, reverse=True): an element passes over strictly larger totals only,
so elements with equal totals keep their first-encountered order. -/
def insertDesc (x : String × ℚ) : List (String × ℚ) → List (String × ℚ)
  | [] => [x]
  | y :: ys => if x.2 < y.2 then y :: insertDesc x ys else x :: y :: ys

/-- Stable descending sort by total (bot.py line 352 before truncation). -/
def sortDesc : List (String × ℚ) → List (String × ℚ)
  | [] => []
  | x :: xs => insertDesc x (sortDesc xs)

/-- The monthly summary rendered by /stats. -/
structure Summary where
  count : Nat
  total : ℚ
  avg : ℚ
  topCategories : List (String × ℚ)
deriving DecidableEq

/-- bot.py stats_command lines 344-352 on a nonempty record list: total, count,
guarded average, and the per-category ranking sorted descending and truncated
to the first five entries. A float conversion failure raises out of the
command (caught by the outer handler as an error message). -/
def statsOfRecords (rs : List TxRecord) : Except String Summary :=
  match statsTotal rs with
  | .error e => .error e
  | .ok total =>
    let count := rs.length
    let avg : ℚ := if count > 0 then total / (count : ℚ) else 0
    match buildCatTotalsAux [] rs with
    | .error e => .error e
    | .ok ct => .ok ⟨count, total, avg, (sortDesc ct).take 5⟩

/-- bot.py stats_command: a missing worksheet (WorksheetNotFound) or an empty
record list short-circuits to the no-expenses reply, an empty summary rather
than an error; otherwise the statistics are computed. -/
def stats_command (recs : Option (List TxRecord)) : Except String Summary :=
  match recs with
  | none => .ok ⟨0, 0, 0, []⟩
  | some [] => .ok ⟨0, 0, 0, []⟩
  | some rs => statsOfRecords rs

/-- The per-user conversational state held in context.user_data: at most one
pending draft and at most one pending archive request (target month plus a
summary snapshot of total and count). -/
structure UserData where
  pending_transaction : Option Draft
  archive_month : Option String
  archive_summary : Option (ℚ × Nat)
deriving DecidableEq

/-- The button/callback vocabulary of button_callback (query.data values);
cat i embeds the string pattern with the parsed index. -/
inductive Event where
  | confirm
  | archive_confirm
  | archive_cancel
  | edit_category
  | cat (i : Nat)
  | cancel
  | back_to_confirm
deriving DecidableEq

/-- The outbound render instruction produced by a handler branch. -/
inductive Render where
  | errorMsg (s : String)
  | successMsg (s : String)
  | card
  | picker
  | cancelMsg (s : String)
deriving DecidableEq

/-- Whether a render is a user-visible error/restart message. -/
def Render.isError : Render → Bool
  | .errorMsg _ => true
  | _ => false

/-- How a handler invocation ends: a normal render, or an uncaught Python
exception propagating out of the handler (state mutated so far is kept). -/
inductive Outcome where
  | render (r : Render)
  | raised (e : String)
deriving DecidableEq

/-- bot.py button_callback: the full branch dispatch on query.data, returning
the updated session, the updated spreadsheet, and the outcome. The confirm and
archive branches carry the try/except of the source; the category-selection
branch has no try/except, so an out-of-range index raises out of the handler
before any mutation. -/
def button_callback (ud : UserData) (sheet : Sheet) (now : DateTime) (backendOk : Bool) :
    Event → UserData × Sheet × Outcome
  | .confirm =>
    match ud.pending_transaction with
    | none =>
      (ud, sheet, .render (.errorMsg "No pending transaction found. Please send a screenshot again."))
    | some d =>
      let sheet1 := (log_to_sheets backendOk sheet d now).2
      match (log_to_sheets backendOk sheet d now).1 with
      | .ok _ =>
        ({ ud with pending_transaction := none }, sheet1,
         .render (.successMsg "Transaction saved successfully!"))
      | .error e =>
        (ud, sheet1, .render (.errorMsg ("Error saving to Google Sheets: " ++ e)))
  | .archive_confirm =>
    match ud.archive_month with
    | none => (ud, sheet, .render (.errorMsg "No month selected for archiving."))
    | some m =>
      let sheet1 := (archive_worksheet sheet m).2
      let ud1 := { ud with archive_month := none, archive_summary := none }
      if (archive_worksheet sheet m).1 then
        (ud1, sheet1, .render (.successMsg ("Successfully archived " ++ m ++ "!")))
      else
        (ud1, sheet1, .render (.errorMsg "Failed to archive the month. Please try again."))
  | .archive_cancel =>
    ({ ud with archive_month := none, archive_summary := none }, sheet,
     .render (.cancelMsg "Archive cancelled."))
  | .edit_category => (ud, sheet, .render .picker)
  | .cat i =>
    if h : i < CATEGORIES.length then
      let selected := CATEGORIES.get ⟨i, h⟩
      let ud1 := match ud.pending_transaction with
        | some d => { ud with pending_transaction := some { d with category := some selected } }
        | none => ud
      (ud1, sheet, .render .card)
    else (ud, sheet, .raised "IndexError: list index out of range")
  | .cancel =>
    ({ ud with pending_transaction := none }, sheet, .render (.cancelMsg "Transaction cancelled."))
  | .back_to_confirm => (ud, sheet, .render .card)

/-- The session the handler returns differs from the session it received at
most in the category field of the pending draft: archive fields untouched, and
the pending draft either untouched or equal up to a reassigned category. -/
def mutatesOnlyDraftCategory (ud ud1 : UserData) : Prop :=
  ud1.archive_month = ud.archive_month ∧ ud1.archive_summary = ud.archive_summary ∧
  (ud1.pending_transaction = ud.pending_transaction ∨
    ∃ d c, ud.pending_transaction = some d ∧
      ud1.pending_transaction = some { d with category := some c })

/-! ### Concrete sample values used by witnesses and counterexamples -/

/-- A fixed commit instant used by concrete scenarios. -/
def sampleNow : DateTime := ⟨⟨2025, 1, 20⟩, 12, 30, 5⟩

/-- The spec scenario draft (whole-number amount so that all evaluations are
literal): Starbucks coffee on 2025-01-15. -/
def sampleDraft : Draft :=
  { date := some ⟨2025, 1, 15⟩, time := none, merchant := some "Starbucks",
    category := some "☕ Coffee/Drinks", amount := some (.num 45), currency := some "MYR",
    payment_method := none, description := none }

/-- The same draft with the category key absent. -/
def noCategoryDraft : Draft :=
  { sampleDraft with category := none }

/-- An empty spreadsheet. -/
def emptySheet : Sheet := ⟨[]⟩

/-- A spreadsheet holding one non-archived January 2025 partition. -/
def janSheet : Sheet := ⟨[⟨"2025-01 January", []⟩]⟩

/-- A spreadsheet holding one already-archived January 2025 partition. -/
def archivedJanSheet : Sheet := ⟨[⟨"[ARCHIVED] 2025-01 January", []⟩]⟩

/-- A session with nothing pending. -/
def emptyUserData : UserData := ⟨none, none, none⟩

/-- A session holding the sample draft as its pending transaction. -/
def draftUserData : UserData := ⟨some sampleDraft, none, none⟩

/-- A record whose Amount cell is a string no number can be parsed from. -/
def badAmountRecord : TxRecord := ⟨some "🍔 Food & Dining", some (.str "abc")⟩

/-- A record with a plain numeric amount. -/
def food10Record : TxRecord := ⟨some "🍔 Food & Dining", some (.num 10)⟩

/-- A record whose Amount key is absent. -/
def noAmountRecord : TxRecord := ⟨some "🍔 Food & Dining", none⟩

/-- Records across six distinct categories (for the top-5 truncation witness). -/
def sixCatRecords : List TxRecord :=
  [⟨some "A", some (.num 1)⟩, ⟨some "B", some (.num 2)⟩, ⟨some "C", some (.num 3)⟩,
   ⟨some "D", some (.num 4)⟩, ⟨some "E", some (.num 5)⟩, ⟨some "F", some (.num 6)⟩]

/-! ### Helper lemmas about the sheet operations -/

/-- A lookup in the sheet returned by partition resolution finds the returned
worksheet under the month label. -/
theorem worksheet_get_or_create (s : Sheet) (d : Date) :
    ((get_or_create_monthly_worksheet s d).2).worksheet (monthLabel d) =
      some (get_or_create_monthly_worksheet s d).1 := by
  simp only [get_or_create_monthly_worksheet]
  cases h : s.worksheet (monthLabel d) with
  | some w => simpa using h
  | none =>
    simp only [Sheet.worksheet] at h ⊢
    simp [List.find?_append, h]

/-- The worksheet returned by partition resolution carries the month label. -/
theorem title_get_or_create (s : Sheet) (d : Date) :
    (get_or_create_monthly_worksheet s d).1.title = monthLabel d := by
  simp only [get_or_create_monthly_worksheet]
  cases h : s.worksheet (monthLabel d) with
  | some w =>
    simp only [h]
    have := List.find?_some (p := fun x => x.title == monthLabel d) (a := w)
      (by simpa [Sheet.worksheet] using h)
    simpa using this
  | none => simp [h]

/-- Appending a row through the first-title-match rewrites exactly that
worksheet, as seen by a subsequent lookup under the same title. -/
theorem find?_appendRow_self (l : List Worksheet) (t : String) (r : Row) (w : Worksheet)
    (h : l.find? (fun x => x.title == t) = some w) :
    (appendRowToWorksheets l t r).find? (fun x => x.title == t) =
      some { w with rows := w.rows ++ [r] } := by
  induction l with
  | nil => simp at h
  | cons w0 ws ih =>
    by_cases hb : w0.title == t
    · simp only [List.find?_cons, hb] at h
      cases h
      simp [appendRowToWorksheets, hb]
    · simp only [List.find?_cons, hb] at h
      simp only [appendRowToWorksheets, hb, if_neg, Bool.false_eq_true, ite_false]
      simp only [List.find?_cons, hb]
      exact ih (by simpa [hb] using h)

/-- Appending a row under one title leaves lookups under any other title alone. -/
theorem find?_appendRow_other (l : List Worksheet) (t t' : String) (r : Row)
    (hne : t' ≠ t) :
    (appendRowToWorksheets l t r).find? (fun x => x.title == t') =
      l.find? (fun x => x.title == t') := by
  induction l with
  | nil => simp [appendRowToWorksheets]
  | cons w0 ws ih =>
    by_cases hb : w0.title == t
    · have hbt : w0.title = t := by simpa using hb
      have hb' : (w0.title == t') = false := by
        simp [hbt]
        exact fun h => hne h.symm
      simp [appendRowToWorksheets, hb, List.find?_cons, hb']
    · simp only [appendRowToWorksheets, hb, Bool.false_eq_true, ite_false]
      simp only [List.find?_cons]
      cases hb' : (w0.title == t') with
      | true => rfl
      | false => exact ih

/-- Removing the only worksheet with a title makes lookups under it fail. -/
theorem find?_removeFirst_of_countP_one (l : List Worksheet) (t : String)
    (h : l.countP (fun x => x.title == t) = 1) :
    (removeFirstByTitle l t).find? (fun x => x.title == t) = none := by
  induction l with
  | nil => simp [removeFirstByTitle]
  | cons w0 ws ih =>
    by_cases hb : w0.title == t
    · simp only [List.countP_cons, hb, if_true] at h
      have hzero : ws.countP (fun x => x.title == t) = 0 := by omega
      simp only [removeFirstByTitle, hb, if_true]
      rw [List.find?_eq_none]
      intro x hx
      have := List.countP_eq_zero.mp hzero x hx
      simpa using this
    · simp only [List.countP_cons, hb] at h
      simp only [removeFirstByTitle, hb, Bool.false_eq_true, ite_false]
      simp only [List.find?_cons, hb, Bool.false_eq_true]
      exact ih (by simpa [hb] using h)

/-- Removing the found worksheet and re-adding a retitled copy with the same
rows preserves the total row count. -/
theorem rowCount_removeFirst_append (l : List Worksheet) (t nt : String) (w : Worksheet)
    (h : l.find? (fun x => x.title == t) = some w) :
    (((removeFirstByTitle l t) ++ [{ w with title := nt }]).map
        (fun (x : Worksheet) => x.rows.length)).sum =
      (l.map (fun (x : Worksheet) => x.rows.length)).sum := by
  induction l with
  | nil => simp at h
  | cons w0 ws ih =>
    by_cases hb : w0.title == t
    · simp only [List.find?_cons, hb] at h
      cases h
      simp only [removeFirstByTitle, hb, if_true]
      simp [List.sum_append, Nat.add_comm]
    · simp only [List.find?_cons, hb] at h
      simp only [removeFirstByTitle, hb, Bool.false_eq_true, ite_false]
      have := ih (by simpa [hb] using h)
      simp only [List.map_cons, List.sum_cons, List.cons_append]
      omega

/-! ### Helper lemmas about the category ranking sort -/

/-- Membership in an insertion. -/
theorem mem_insertDesc (x a : String × ℚ) (l : List (String × ℚ)) :
    a ∈ insertDesc x l ↔ a = x ∨ a ∈ l := by
  induction l with
  | nil => simp [insertDesc]
  | cons y ys ih =>
    simp only [insertDesc]
    by_cases hlt : x.2 < y.2
    · simp only [hlt, if_true, List.mem_cons, ih]
      tauto
    · simp only [hlt, if_false, List.mem_cons]

/-- Insertion preserves the descending-by-total ordering. -/
theorem pairwise_insertDesc (x : String × ℚ) (l : List (String × ℚ))
    (h : l.Pairwise (fun a b => b.2 ≤ a.2)) :
    (insertDesc x l).Pairwise (fun a b => b.2 ≤ a.2) := by
  induction l with
  | nil => simp [insertDesc]
  | cons y ys ih =>
    rw [List.pairwise_cons] at h
    simp only [insertDesc]
    by_cases hlt : x.2 < y.2
    · simp only [hlt, if_true]
      rw [List.pairwise_cons]
      constructor
      · intro b hb
        rcases (mem_insertDesc x b ys).mp hb with hbx | hbys
        · exact hbx ▸ le_of_lt hlt
        · exact h.1 b hbys
      · exact ih h.2
    · simp only [hlt, if_false]
      rw [List.pairwise_cons]
      constructor
      · intro b hb
        rcases List.mem_cons.mp hb with hby | hbys
        · exact hby ▸ le_of_not_lt hlt
        · exact le_trans (h.1 b hbys) (le_of_not_lt hlt)
      · exact List.pairwise_cons.mpr h

/-- The ranking sort is sorted descending by total. -/
theorem pairwise_sortDesc (l : List (String × ℚ)) :
    (sortDesc l).Pairwise (fun a b => b.2 ≤ a.2) := by
  induction l with
  | nil => simp [sortDesc]
  | cons x xs ih => exact pairwise_insertDesc x (sortDesc xs) ih

/-- Stability of the insertion, seen through the slice at one total value:
inserting an element never moves it past another element of equal total. -/
theorem filter_insertDesc (t : ℚ) (x : String × ℚ) (l : List (String × ℚ)) :
    (insertDesc x l).filter (fun p => decide (p.2 = t)) =
      (x :: l).filter (fun p => decide (p.2 = t)) := by
  induction l with
  | nil => simp [insertDesc]
  | cons y ys ih =>
    simp only [insertDesc]
    by_cases hlt : x.2 < y.2
    · simp only [hlt, if_true]
      by_cases hx : x.2 = t
      · have hy : ¬ y.2 = t := by
          intro hy
          exact absurd (hy.trans hx.symm) (ne_of_gt hlt)
        simpa [List.filter_cons, hy, hx] using ih
      · simp only [List.filter_cons, decide_eq_true_eq, hx, if_false] at *
        by_cases hy : y.2 = t
        · simpa [hy, hx] using ih
        · simpa [hy, hx] using ih
    · simp only [hlt, if_false]

/-- The ranking sort is stable: the subsequence of entries carrying any fixed
total is exactly the first-encountered-order subsequence of the input. -/
theorem filter_sortDesc (t : ℚ) (l : List (String × ℚ)) :
    (sortDesc l).filter (fun p => decide (p.2 = t)) =
      l.filter (fun p => decide (p.2 = t)) := by
  induction l with
  | nil => simp [sortDesc]
  | cons x xs ih =>
    simp only [sortDesc]
    rw [filter_insertDesc]
    simp only [List.filter_cons]
    by_cases hx : x.2 = t
    · simp [hx, ih]
    · simp [hx, ih]

/-- When the month label is already present, partition resolution returns the
found worksheet and leaves the sheet untouched. -/
theorem get_or_create_of_found (s : Sheet) (d : Date) (w : Worksheet)
    (h : s.worksheet (monthLabel d) = some w) :
    get_or_create_monthly_worksheet s d = (w, s) := by
  simp [get_or_create_monthly_worksheet, h]

/-- When every amount conversion succeeds, the total is the plain
arithmetic sum of the converted amounts. -/
theorem statsTotal_of_all_ok (rs : List TxRecord)
    (h : ∀ r ∈ rs, ∃ q, recordAmount r = .ok q) :
    statsTotal rs = .ok (rs.foldr (fun r acc => recordAmountD r + acc) 0) := by
  induction rs with
  | nil => rfl
  | cons r rest ih =>
    obtain ⟨q, hq⟩ := h r (by simp)
    have hD : recordAmountD r = q := by simp [recordAmountD, hq]
    have hrest := ih (fun x hx => h x (by simp [hx]))
    simp only [statsTotal, hq, hrest, List.foldr_cons, hD]

/-! ### C3: partition resolution is idempotent and deterministic -/

/-- C3. resolvePartition is idempotent and deterministic: for two dates in the
same (year, month), the second call returns the same worksheet as the first
and does not modify the sheet (no duplicate partition), and the returned
title of that worksheet is the label derived from the date as yyyy-mm plus the full
month name. -/
theorem resolvePartition_idempotent (s : Sheet) (d1 d2 : Date)
    (hy : d1.year = d2.year) (hm : d1.month = d2.month) :
    (get_or_create_monthly_worksheet (get_or_create_monthly_worksheet s d1).2 d2).1 =
      (get_or_create_monthly_worksheet s d1).1 ∧
    (get_or_create_monthly_worksheet (get_or_create_monthly_worksheet s d1).2 d2).2 =
      (get_or_create_monthly_worksheet s d1).2 ∧
    (get_or_create_monthly_worksheet s d1).1.title = monthLabel d1 := by
  have hlab : monthLabel d2 = monthLabel d1 := by
    simp [monthLabel, hy, hm]
  have hfound : ((get_or_create_monthly_worksheet s d1).2).worksheet (monthLabel d2) =
      some (get_or_create_monthly_worksheet s d1).1 := by
    rw [hlab]; exact worksheet_get_or_create s d1
  have h2 := get_or_create_of_found _ d2 _ hfound
  exact ⟨by rw [h2], by rw [h2], title_get_or_create s d1⟩

/-- C3 witness: concrete instantiation with two January 2025 dates on an empty
sheet; the second resolution returns the first partition unchanged, and the
label is "2025-01 January". -/
theorem resolvePartition_idempotent_witness :
    (get_or_create_monthly_worksheet
        (get_or_create_monthly_worksheet ⟨[]⟩ ⟨2025, 1, 15⟩).2 ⟨2025, 1, 31⟩).1 =
      (get_or_create_monthly_worksheet ⟨[]⟩ ⟨2025, 1, 15⟩).1 ∧
    (get_or_create_monthly_worksheet
        (get_or_create_monthly_worksheet ⟨[]⟩ ⟨2025, 1, 15⟩).2 ⟨2025, 1, 31⟩).2 =
      (get_or_create_monthly_worksheet ⟨[]⟩ ⟨2025, 1, 15⟩).2 ∧
    (get_or_create_monthly_worksheet ⟨[]⟩ ⟨2025, 1, 15⟩).1.title = "2025-01 January" := by
  have h := resolvePartition_idempotent ⟨[]⟩ ⟨2025, 1, 15⟩ ⟨2025, 1, 31⟩ rfl rfl
  exact ⟨h.1, h.2.1, h.2.2.trans (by decide)⟩

/-! ### C1: commit appends exactly one row built from the draft -/

/-- C1 (amended). For every draft whose amount converts, commit with a healthy
backend succeeds and appends exactly one row to the partition resolved from
the transaction date of the draft (today when absent): that partition gains exactly
the 9-field row shown — date defaulting to today, currency defaulting to MYR,
category defaulting to the EMPTY STRING (not the "Others" fallback), the other
text fields defaulting to empty — whose 9th field is the commit-time
timestamp; every other partition is untouched. -/
theorem commit_appends_exactly_one_row (s : Sheet) (data : Draft) (now : DateTime) (q : ℚ)
    (hamt : pyFloat (data.amount.getD (.num 0)) = .ok q) :
    (log_to_sheets true s data now).1 = .ok () ∧
    (log_to_sheets true s data now).2.worksheet (monthLabel (data.date.getD now.date)) =
      some { title := monthLabel (data.date.getD now.date),
             rows := (get_or_create_monthly_worksheet s (data.date.getD now.date)).1.rows ++
               [[Cell.str (formatDate (data.date.getD now.date)),
                 Cell.str (data.time.getD ""),
                 Cell.str (data.merchant.getD ""),
                 Cell.str (data.category.getD ""),
                 Cell.num q,
                 Cell.str (data.currency.getD "MYR"),
                 Cell.str (data.payment_method.getD ""),
                 Cell.str (data.description.getD ""),
                 Cell.str (formatTimestamp now)]] } ∧
    ∀ t, t ≠ monthLabel (data.date.getD now.date) →
      (log_to_sheets true s data now).2.worksheet t =
        (get_or_create_monthly_worksheet s (data.date.getD now.date)).2.worksheet t := by
  have hunf : log_to_sheets true s data now =
      (.ok (), ⟨appendRowToWorksheets
        (get_or_create_monthly_worksheet s (data.date.getD now.date)).2.worksheets
        (get_or_create_monthly_worksheet s (data.date.getD now.date)).1.title
        [Cell.str (formatDate (data.date.getD now.date)),
         Cell.str (data.time.getD ""),
         Cell.str (data.merchant.getD ""),
         Cell.str (data.category.getD ""),
         Cell.num q,
         Cell.str (data.currency.getD "MYR"),
         Cell.str (data.payment_method.getD ""),
         Cell.str (data.description.getD ""),
         Cell.str (formatTimestamp now)]⟩) := by
    simp [log_to_sheets, hamt]
  have htitle := title_get_or_create s (data.date.getD now.date)
  have hfind : ((get_or_create_monthly_worksheet s (data.date.getD now.date)).2).worksheets.find?
        (fun x => x.title == monthLabel (data.date.getD now.date)) =
      some (get_or_create_monthly_worksheet s (data.date.getD now.date)).1 := by
    have := worksheet_get_or_create s (data.date.getD now.date)
    simpa [Sheet.worksheet] using this
  refine ⟨by rw [hunf], ?_, ?_⟩
  · rw [hunf]
    simp only [Sheet.worksheet]
    rw [htitle, find?_appendRow_self _ _ _ _ hfind, htitle]
  · intro t ht
    rw [hunf]
    simp only [Sheet.worksheet]
    rw [htitle]
    exact find?_appendRow_other _ _ _ _ ht

/-- C1 witness: the scenario draft (Starbucks, 2025-01-15, category present)
commits successfully into the partition resolved from its date. -/
theorem commit_appends_exactly_one_row_witness :
    pyFloat (sampleDraft.amount.getD (.num 0)) = .ok 45 ∧
    (log_to_sheets true emptySheet sampleDraft sampleNow).1 = .ok () := by
  exact ⟨rfl, (commit_appends_exactly_one_row emptySheet sampleDraft sampleNow 45 rfl).1⟩

/-- C1 counterexample: committing a draft with no category stores the EMPTY
STRING in the category field of the appended row, not the "Others" fallback
category the claim names: the field equation of the claim is false at this input. -/
theorem commit_category_default_counterexample :
    (log_to_sheets true emptySheet noCategoryDraft sampleNow).2 =
      ⟨[⟨"2025-01 January",
         [headerRow,
          [.str "2025-01-15", .str "", .str "Starbucks", .str "", .num 45,
           .str "MYR", .str "", .str "", .str "2025-01-20 12:30:05"]]⟩]⟩ ∧
    Cell.str "" ≠ Cell.str "💳 Others" ∧ Cell.str "" ≠ Cell.str "Others" := by
  refine ⟨by decide, by decide, by decide⟩

/-! ### C2: archive idempotence -/

/-- C2 counterexample: archiving the same non-archived label twice in a row
returns success on the first call but FAILURE on the second call — the claim
says the second call returns success. (The renamed partition can no longer be
found under the original label, so the lookup failure is caught and reported
as False.) -/
theorem archive_twice_counterexample :
    (archive_worksheet janSheet "2025-01 January").1 = true ∧
    (archive_worksheet (archive_worksheet janSheet "2025-01 January").2
        "2025-01 January").1 = false := by
  refine ⟨by decide, by decide⟩

/-- C2 (amended). Archiving a partition whose passed title already bears the
archived marker returns success with no mutation at all; but calling archive
twice in a row with the same non-archived label (held by exactly one
partition) returns success on the first call and FAILURE on the second call,
which performs no further mutation. -/
theorem archive_idempotent_amended :
    (∀ (s : Sheet) (t : String) (w : Worksheet),
      s.worksheet t = some w → strStartsWith t "[ARCHIVED]" = true →
      archive_worksheet s t = (true, s)) ∧
    (∀ (s : Sheet) (t : String),
      strStartsWith t "[ARCHIVED]" = false →
      s.worksheets.countP (fun x => x.title == t) = 1 →
      (archive_worksheet s t).1 = true ∧
      (archive_worksheet (archive_worksheet s t).2 t).1 = false ∧
      (archive_worksheet (archive_worksheet s t).2 t).2 = (archive_worksheet s t).2) := by
  constructor
  · intro s t w hw hpre
    simp [archive_worksheet, hw, hpre]
  · intro s t hpre hcount
    have hex : ∃ x ∈ s.worksheets, (x.title == t) = true := by
      have : 0 < s.worksheets.countP (fun x => x.title == t) := by omega
      exact List.countP_pos_iff.mp this
    have hsome : (s.worksheets.find? (fun x => x.title == t)).isSome := by
      exact List.find?_isSome.mpr hex
    obtain ⟨w, hw⟩ := Option.isSome_iff_exists.mp hsome
    have hw' : s.worksheet t = some w := hw
    have hfirst : archive_worksheet s t =
        (true, ⟨removeFirstByTitle s.worksheets t ++ [{ w with title := "[ARCHIVED] " ++ t }]⟩) := by
      simp [archive_worksheet, hw', hpre]
    have hne : ("[ARCHIVED] " ++ t) ≠ t := by
      intro he
      have := congrArg String.length he
      have hlen : ("[ARCHIVED] " : String).length = 11 := by rfl
      rw [String.length_append, hlen] at this
      omega
    have hlookup : (Sheet.worksheet
        ⟨removeFirstByTitle s.worksheets t ++ [{ w with title := "[ARCHIVED] " ++ t }]⟩ t) = none := by
      simp only [Sheet.worksheet, List.find?_append]
      rw [find?_removeFirst_of_countP_one s.worksheets t hcount]
      simp [hne]
    refine ⟨by rw [hfirst], ?_, ?_⟩
    · rw [hfirst]
      simp [archive_worksheet, hlookup]
    · rw [hfirst]
      simp [archive_worksheet, hlookup]

/-- C2 witness: concrete instantiations — archiving an already-archived title
is a success no-op, and the first archive of a fresh label succeeds. -/
theorem archive_idempotent_amended_witness :
    archive_worksheet archivedJanSheet "[ARCHIVED] 2025-01 January" =
      (true, archivedJanSheet) ∧
    (archive_worksheet janSheet "2025-01 January").1 = true := by
  refine ⟨archive_idempotent_amended.1 archivedJanSheet "[ARCHIVED] 2025-01 January"
      ⟨"[ARCHIVED] 2025-01 January", []⟩ (by decide) (by decide),
    (archive_idempotent_amended.2 janSheet "2025-01 January" (by decide) (by decide)).1⟩

/-! ### Handler lemmas and claims C4, C5, C8, C9 -/

/-- Archiving never changes the total number of stored rows (it only renames
and repositions a worksheet). -/
theorem rowCount_archive (s : Sheet) (t : String) :
    sheetRowCount (archive_worksheet s t).2 = sheetRowCount s := by
  cases hw : s.worksheet t with
  | none => simp [archive_worksheet, hw]
  | some w =>
    by_cases hpre : strStartsWith t "[ARCHIVED]"
    · simp [archive_worksheet, hw, hpre]
    · have h2 : (archive_worksheet s t).2 =
          ⟨removeFirstByTitle s.worksheets t ++ [{ w with title := "[ARCHIVED] " ++ t }]⟩ := by
        simp [archive_worksheet, hw, hpre]
      rw [h2]
      exact rowCount_removeFirst_append s.worksheets t _ w
        (by simpa [Sheet.worksheet] using hw)

/-- C5. On a confirm event with a pending draft, the pending draft is cleared
if and only if the commit succeeds; when the commit fails the failure surfaces
as an error message and the session is returned unchanged, the draft still in
place for retry. -/
theorem confirm_clears_draft_iff_commit_succeeds
    (ud : UserData) (s : Sheet) (now : DateTime) (bk : Bool) (d : Draft)
    (hd : ud.pending_transaction = some d) :
    ((button_callback ud s now bk .confirm).1.pending_transaction = none ↔
      (log_to_sheets bk s d now).1 = .ok ()) ∧
    ∀ e, (log_to_sheets bk s d now).1 = .error e →
      (button_callback ud s now bk .confirm).1 = ud ∧
      (button_callback ud s now bk .confirm).2.2 =
        .render (.errorMsg ("Error saving to Google Sheets: " ++ e)) := by
  cases hr : (log_to_sheets bk s d now).1 with
  | ok u =>
    cases u
    simp [button_callback, hd, hr]
  | error e0 =>
    constructor
    · simp [button_callback, hd, hr]
    · intro e he
      injection he with hee
      subst hee
      simp [button_callback, hd, hr]

/-- C5 witness: with a failing storage backend the sample draft is not
cleared and the error message is rendered. -/
theorem confirm_clears_draft_iff_commit_succeeds_witness :
    draftUserData.pending_transaction = some sampleDraft ∧
    ((button_callback draftUserData emptySheet sampleNow false .confirm).1.pending_transaction
        = none ↔ (log_to_sheets false emptySheet sampleDraft sampleNow).1 = .ok ()) := by
  exact ⟨rfl, (confirm_clears_draft_iff_commit_succeeds draftUserData emptySheet sampleNow
    false sampleDraft rfl).1⟩

/-- C4 counterexample: a category-selection event arriving with no pending
draft does NOT render a restart/error message — it renders the ordinary
confirmation card (populated from an empty draft), leaving session and sheet
unchanged. -/
theorem category_selection_without_draft_counterexample :
    button_callback emptyUserData emptySheet sampleNow true (.cat 0) =
      (emptyUserData, emptySheet, .render .card) ∧
    Render.card.isError = false := by
  refine ⟨by decide, by decide⟩

/-- C4 (amended). A confirm event with no pending draft and an archive-confirm
event with no pending archive target render a user-visible error message and
return with no side effect on session or ledger; a category-selection event
with no pending draft likewise has no side effect on session or ledger, but it
renders the ordinary confirmation card rather than an error message. -/
theorem missing_pending_state_amended (ud : UserData) (s : Sheet) (now : DateTime) (bk : Bool) :
    (ud.pending_transaction = none →
      button_callback ud s now bk .confirm =
        (ud, s, .render (.errorMsg "No pending transaction found. Please send a screenshot again."))) ∧
    (ud.archive_month = none →
      button_callback ud s now bk .archive_confirm =
        (ud, s, .render (.errorMsg "No month selected for archiving."))) ∧
    ∀ i, i < CATEGORIES.length → ud.pending_transaction = none →
      button_callback ud s now bk (.cat i) = (ud, s, .render .card) := by
  refine ⟨fun h => by simp [button_callback, h], fun h => by simp [button_callback, h],
    fun i hi h => by simp [button_callback, h, hi]⟩

/-- C4 witness: concrete confirm and archive-confirm events on an empty
session render the two error messages with no side effects. -/
theorem missing_pending_state_amended_witness :
    button_callback emptyUserData emptySheet sampleNow true .confirm =
      (emptyUserData, emptySheet,
        .render (.errorMsg "No pending transaction found. Please send a screenshot again.")) ∧
    button_callback emptyUserData emptySheet sampleNow true .archive_confirm =
      (emptyUserData, emptySheet, .render (.errorMsg "No month selected for archiving.")) := by
  exact ⟨(missing_pending_state_amended emptyUserData emptySheet sampleNow true).1 rfl,
    (missing_pending_state_amended emptyUserData emptySheet sampleNow true).2.1 rfl⟩

/-- C8. Category-edit events (opening the picker, picking a category, going
back) never touch the ledger: the sheet is returned exactly as received, and
the session changes at most in the category field of the pending draft; moreover
no event other than confirm ever changes the total number of stored rows, so
only the confirm/commit path appends. -/
theorem category_edit_never_mutates_ledger (ud : UserData) (s : Sheet) (now : DateTime)
    (bk : Bool) (i : Nat) :
    (button_callback ud s now bk .edit_category).1 = ud ∧
    (button_callback ud s now bk .edit_category).2.1 = s ∧
    (button_callback ud s now bk .back_to_confirm).1 = ud ∧
    (button_callback ud s now bk .back_to_confirm).2.1 = s ∧
    (button_callback ud s now bk (.cat i)).2.1 = s ∧
    mutatesOnlyDraftCategory ud (button_callback ud s now bk (.cat i)).1 ∧
    ∀ e, e ≠ .confirm → sheetRowCount (button_callback ud s now bk e).2.1 = sheetRowCount s := by
  refine ⟨rfl, rfl, rfl, rfl, ?_, ?_, ?_⟩
  · by_cases hi : i < CATEGORIES.length
    · simp [button_callback, hi]
    · simp [button_callback, hi]
  · by_cases hi : i < CATEGORIES.length
    · cases hp : ud.pending_transaction with
      | none =>
        simp [button_callback, hi, hp, mutatesOnlyDraftCategory]
      | some d =>
        unfold mutatesOnlyDraftCategory
        refine ⟨by simp [button_callback, hi, hp], by simp [button_callback, hi, hp],
          Or.inr ⟨d, CATEGORIES.get ⟨i, hi⟩, hp, by simp [button_callback, hi, hp]⟩⟩
    · simp [button_callback, hi, mutatesOnlyDraftCategory]
  · intro e he
    cases e with
    | confirm => exact absurd rfl he
    | archive_confirm =>
      cases hm : ud.archive_month with
      | none => simp [button_callback, hm]
      | some m =>
        by_cases hb : (archive_worksheet s m).1
        · simp [button_callback, hm, hb, rowCount_archive]
        · simp [button_callback, hm, hb, rowCount_archive]
    | archive_cancel => rfl
    | edit_category => rfl
    | cat i =>
      by_cases hi : i < CATEGORIES.length
      · cases hp : ud.pending_transaction <;> simp [button_callback, hi, hp]
      · simp [button_callback, hi]
    | cancel => rfl
    | back_to_confirm => rfl

/-- C8 witness: concrete instantiation — the picker event leaves the session
as it was, and a cancel event leaves the row count unchanged. -/
theorem category_edit_never_mutates_ledger_witness :
    (button_callback draftUserData emptySheet sampleNow true .edit_category).1 = draftUserData ∧
    sheetRowCount (button_callback draftUserData emptySheet sampleNow true .cancel).2.1 =
      sheetRowCount emptySheet := by
  exact ⟨(category_edit_never_mutates_ledger draftUserData emptySheet sampleNow true 0).1,
    (category_edit_never_mutates_ledger draftUserData emptySheet sampleNow true 0).2.2.2.2.2.2
      .cancel (by decide)⟩

/-- C9. A category-selection event carrying an index at or beyond the registry
length raises out of the handler (IndexError) before any mutation: the session
and the ledger are returned exactly as they were and no ledger operation
occurs. -/
theorem invalid_category_selection_raises (ud : UserData) (s : Sheet) (now : DateTime)
    (bk : Bool) (i : Nat) (hi : CATEGORIES.length ≤ i) :
    button_callback ud s now bk (.cat i) =
      (ud, s, .raised "IndexError: list index out of range") := by
  have hni : ¬ i < CATEGORIES.length := Nat.not_lt.mpr hi
  simp [button_callback, hni]

/-- C9 witness: index 27 is out of range for the 27-entry registry; the
handler raises and leaves the session untouched. -/
theorem invalid_category_selection_raises_witness :
    CATEGORIES.length ≤ 27 ∧
    button_callback draftUserData emptySheet sampleNow true (.cat 27) =
      (draftUserData, emptySheet, .raised "IndexError: list index out of range") := by
  exact ⟨by decide, invalid_category_selection_raises draftUserData emptySheet sampleNow true 27
    (by decide)⟩

/-! ### C6, C7, C10: monthly statistics -/

/-- C6. The stats command on a missing partition or an empty record list
returns the empty summary — count 0, total 0, average 0, empty breakdown — as
an ordinary result, not an error; and every summary it returns satisfies the
guarded average equation: average equals total divided by count, and is 0 when
count is 0. -/
theorem monthlySummary_empty_cases_and_guarded_average :
    stats_command none = .ok ⟨0, 0, 0, []⟩ ∧
    stats_command (some []) = .ok ⟨0, 0, 0, []⟩ ∧
    ∀ ro s, stats_command ro = .ok s →
      s.avg = if s.count = 0 then 0 else s.total / (s.count : ℚ) := by
  refine ⟨rfl, rfl, ?_⟩
  intro ro s h
  cases ro with
  | none =>
    simp only [stats_command] at h
    injection h with h'
    rw [← h']
    simp
  | some rs =>
    cases rs with
    | nil =>
      simp only [stats_command] at h
      injection h with h'
      rw [← h']
      simp
    | cons r rest =>
      simp only [stats_command, statsOfRecords] at h
      cases ht : statsTotal (r :: rest) with
      | error e => rw [ht] at h; simp at h
      | ok total =>
        rw [ht] at h
        cases hc : buildCatTotalsAux [] (r :: rest) with
        | error e => rw [hc] at h; simp at h
        | ok ct =>
          rw [hc] at h
          injection h with h'
          rw [← h']
          simp

/-- C6 witness: one record of amount 10 yields a summary whose average obeys
the guarded equation. -/
theorem monthlySummary_empty_cases_and_guarded_average_witness :
    stats_command (some [food10Record]) =
      .ok ⟨1, 10 + 0, (10 + 0) / ((1 : Nat) : ℚ), [("🍔 Food & Dining", 10)]⟩ ∧
    ((10 + 0 : ℚ) / ((1 : Nat) : ℚ) =
      if (1 : Nat) = 0 then 0 else (10 + 0 : ℚ) / ((1 : Nat) : ℚ)) := by
  refine ⟨by rfl, ?_⟩
  exact monthlySummary_empty_cases_and_guarded_average.2.2 (some [food10Record])
    ⟨1, 10 + 0, (10 + 0) / ((1 : Nat) : ℚ), [("🍔 Food & Dining", 10)]⟩ (by rfl)

/-- C7 counterexample: a single row whose Amount cell is the string "abc"
makes the whole total computation raise (an error result), instead of
contributing zero as the claim states. -/
theorem statsTotal_unparseable_counterexample :
    statsTotal [badAmountRecord] = .error "could not convert string to float: abc" ∧
    (Except.error "could not convert string to float: abc" : Except String ℚ) ≠ .ok 0 := by
  refine ⟨by rfl, by simp⟩

/-- C7 (amended). The total is the arithmetic sum of the row amounts when
every amount is missing or convertible (a missing amount contributes
zero through the dictionary default); but a row whose amount is a string no
number can be parsed from makes the float conversion raise, aborting the whole
summary with an error rather than contributing zero. -/
theorem statsTotal_amended :
    (∀ rs : List TxRecord, (∀ r ∈ rs, ∃ q, recordAmount r = .ok q) →
      statsTotal rs = .ok (rs.foldr (fun r acc => recordAmountD r + acc) 0)) ∧
    (∀ r : TxRecord, r.amount = none → recordAmount r = .ok 0) ∧
    (∀ rs : List TxRecord, ∀ r ∈ rs, ∀ s', r.amount = some (.str s') →
      parseDecimal s' = none → ∃ e, statsTotal rs = .error e) := by
  refine ⟨statsTotal_of_all_ok, ?_, ?_⟩
  · intro r hr
    simp [recordAmount, hr, pyFloat]
  · intro rs
    induction rs with
    | nil => intro r hr; simp at hr
    | cons r0 rest ih =>
      intro r hr s' hs hp
      rcases List.mem_cons.mp hr with h0 | hmem
      · subst h0
        have hbad : recordAmount r = .error ("could not convert string to float: " ++ s') := by
          simp [recordAmount, hs, pyFloat, hp]
        exact ⟨"could not convert string to float: " ++ s', by simp [statsTotal, hbad]⟩
      · cases ha : recordAmount r0 with
        | error e => exact ⟨e, by simp [statsTotal, ha]⟩
        | ok q =>
          obtain ⟨e, he⟩ := ih r hmem s' hs hp
          exact ⟨e, by simp [statsTotal, ha, he]⟩

/-- C7 witness: a one-record list with a numeric amount sums cleanly, and a
record with no Amount key converts to zero. -/
theorem statsTotal_amended_witness :
    statsTotal [food10Record] =
      .ok ([food10Record].foldr (fun r acc => recordAmountD r + acc) 0) ∧
    recordAmount noAmountRecord = .ok 0 := by
  refine ⟨statsTotal_amended.1 [food10Record] ?_, statsTotal_amended.2.1 noAmountRecord rfl⟩
  intro r hr
  rw [List.mem_singleton] at hr
  exact ⟨10, by subst hr; rfl⟩

/-- C10. Every summary the stats computation returns ranks at most five
categories; the ranking is sorted by per-category total descending; and it is
exactly the five-entry truncation of a stable descending sort of the
first-encountered-order category totals — entries with equal totals keep
their first-encountered order, so categories ranked sixth or lower never
appear. -/
theorem top_categories_ranking (rs : List TxRecord) (s : Summary)
    (h : statsOfRecords rs = .ok s) :
    s.topCategories.length ≤ 5 ∧
    s.topCategories.Pairwise (fun a b => b.2 ≤ a.2) ∧
    ∃ ct, buildCatTotalsAux [] rs = .ok ct ∧
      s.topCategories = (sortDesc ct).take 5 ∧
      ∀ t, (sortDesc ct).filter (fun p => decide (p.2 = t)) =
        ct.filter (fun p => decide (p.2 = t)) := by
  simp only [statsOfRecords] at h
  cases ht : statsTotal rs with
  | error e => rw [ht] at h; simp at h
  | ok total =>
    rw [ht] at h
    cases hc : buildCatTotalsAux [] rs with
    | error e => rw [hc] at h; simp at h
    | ok ct =>
      rw [hc] at h
      injection h with h'
      rw [← h']
      refine ⟨?_, ?_, ct, rfl, rfl, fun t => filter_sortDesc t ct⟩
      · simp only [List.length_take]
        omega
      · exact List.Pairwise.sublist (List.take_sublist 5 _) (pairwise_sortDesc ct)

/-- C10 witness: six categories of totals 1..6 — the rendered ranking holds
exactly the top five. -/
theorem top_categories_ranking_witness :
    statsOfRecords sixCatRecords =
      .ok ⟨6, 1 + (2 + (3 + (4 + (5 + (6 + 0))))),
           (1 + (2 + (3 + (4 + (5 + (6 + 0)))))) / ((6 : Nat) : ℚ),
           [("F", 6), ("E", 5), ("D", 4), ("C", 3), ("B", 2)]⟩ ∧
    (Summary.topCategories
      ⟨6, 1 + (2 + (3 + (4 + (5 + (6 + 0))))),
       (1 + (2 + (3 + (4 + (5 + (6 + 0)))))) / ((6 : Nat) : ℚ),
       [("F", 6), ("E", 5), ("D", 4), ("C", 3), ("B", 2)]⟩).length ≤ 5 := by
  refine ⟨by rfl, ?_⟩
  exact (top_categories_ranking sixCatRecords
    ⟨6, 1 + (2 + (3 + (4 + (5 + (6 + 0))))),
     (1 + (2 + (3 + (4 + (5 + (6 + 0)))))) / ((6 : Nat) : ℚ),
     [("F", 6), ("E", 5), ("D", 4), ("C", 3), ("B", 2)]⟩ (by rfl)).1

end ExpenseBot
